import Mathlib

/-!
Verification development for the affine-mcp server.

The program under study is a Model Context Protocol server bridging MCP tool
and resource calls to the AFFiNE GraphQL API.  The embedding below follows the
source file of the package (the full fifteen-tool server; an older four-tool
variant of the same file shares the adapter and resolver code verbatim).

Modelling conventions:
  - Machine effects are made explicit.  Each handler is a function from an
    upstream oracle to an element of the effect type Eff, which records the
    list of upstream GraphQL requests issued (with their variables) together
    with an Except result.  Eff.bindE sequences two effects as the source
    sequences awaits; Eff.tryCatchE models a JavaScript try/catch block.
  - Possibly-absent JavaScript values (undefined/null) are Option values;
    JavaScript truthiness of a string value is the predicate truthyStr, and
    the short-circuit expression a || b on such values is jsOr.
  - The upstream oracle Upstream holds one field per distinct GraphQL
    operation the server issues; each field returns Except McpErr so any call
    can fail with the normalized adapter error.  Both document listing call
    sites (getWorkspaceDocs and listDocuments) address the same upstream
    field docsConn, the workspace.docs(pagination) query; each call site
    projects the fields its own GraphQL selection names.
  - The HTTP/envelope layer of the adapter (makeGraphQLRequest) is embedded
    separately and directly, over an explicit fetch-result datatype.
-/

namespace AffineMcp

/-- One error object of a GraphQL response envelope (only the message field
is read by the source). -/
structure GqlErr where
  message : String
deriving Repr, DecidableEq

/-- Normalized errors raised by the server: McpError codes used by the source
(InternalError, InvalidRequest, MethodNotFound), each with its message. -/
inductive McpErr where
  | internalError (message : String)
  | invalidRequest (message : String)
  | methodNotFound (message : String)
deriving Repr, DecidableEq

/-- The message carried by a normalized error (the error.message read by the
catch blocks of the source). -/
def McpErr.message : McpErr → String
  | McpErr.internalError m => m
  | McpErr.invalidRequest m => m
  | McpErr.methodNotFound m => m

/-- A workspace row as selected by the workspaces query (id, public,
createdAt). -/
structure Workspace where
  id : String
  isPublic : Bool
  createdAt : String
deriving Repr, DecidableEq

/-- A document node as selected by the workspace.docs query.  The title may
be absent; the source treats that as a valid state. -/
structure DocNode where
  id : String
  title : Option String
  createdAt : String
  updatedAt : String
  isPublic : Bool
  mode : String
  summary : Option String
deriving Repr, DecidableEq

/-- One edge of the docs connection: a cursor and the node. -/
structure DocEdge where
  cursor : String
  node : DocNode
deriving Repr, DecidableEq

/-- Relay style page info returned by the docs connection. -/
structure PageInfo where
  hasNextPage : Bool
  hasPreviousPage : Bool
  startCursor : Option String
  endCursor : Option String
deriving Repr, DecidableEq

/-- The docs connection returned by the workspace.docs(pagination) query. -/
structure DocsConnection where
  edges : List DocEdge
  pageInfo : PageInfo
  totalCount : Nat
deriving Repr, DecidableEq

/-- A search hit returned by workspace.searchDocs. -/
structure SearchHit where
  docId : String
  title : String
  highlight : String
  createdAt : String
  updatedAt : String
deriving Repr, DecidableEq

/-- Workspace detail as selected by the getWorkspaceInfo query. -/
structure WorkspaceInfo where
  id : String
  isPublic : Bool
  createdAt : String
  memberCount : Nat
  quotaName : String
  storageQuota : Nat
  usedStorageQuota : Nat
  memberLimit : Nat
  quotaMemberCount : Nat
  ownerName : String
  ownerEmail : String
deriving Repr, DecidableEq

/-- Document metadata as selected by the getDocument meta query. -/
structure DocMeta where
  id : String
  title : Option String
  createdAt : String
  updatedAt : String
  createdByName : Option String
  lastUpdatedByName : Option String
  mode : String
  isPublic : Bool
  canRead : Bool
  canUpdate : Bool
  canDelete : Bool
deriving Repr, DecidableEq

/-- Result of the publishDoc / revokePublicDoc mutations. -/
structure PubDoc where
  id : String
  title : Option String
  isPublic : Bool
  mode : String
  canRead : Bool
  canUpdate : Bool
deriving Repr, DecidableEq

/-- One comment node (replies kept as a count of reply nodes; the source only
reads replies.length for display). -/
structure CommentNode where
  id : String
  content : Option String
  createdAt : String
  resolved : Bool
  userName : String
  replyCount : Nat
deriving Repr, DecidableEq

/-- The comments connection (nodes are the mapped edge.node values). -/
structure CommentsPage where
  nodes : List CommentNode
  totalCount : Nat
  hasNextPage : Bool
  hasPreviousPage : Bool
deriving Repr, DecidableEq

/-- The variables object of the createComment mutation, built by the handler. -/
structure CommentInput where
  docId : Option String
  workspaceId : Option String
  content : Option String
  docMode : String
  docTitle : Option String
  mentions : List String
deriving Repr, DecidableEq

/-- One node of the advanced search result (fields and highlights are opaque
payloads to the server; it only renders them). -/
structure AdvNode where
  fields : String
  highlights : String
deriving Repr, DecidableEq

/-- Advanced search results with their pagination block. -/
structure AdvResults where
  nodes : List AdvNode
  count : Nat
  hasMore : Bool
deriving Repr, DecidableEq

/-- One history entry of the workspace.histories query. -/
structure HistoryEntry where
  id : String
  timestamp : String
  editorName : Option String
  workspaceId : String
deriving Repr, DecidableEq

/-- One blob row of the workspace.blobs query. -/
structure Blob where
  key : String
  mime : String
  size : Nat
  createdAt : String
deriving Repr, DecidableEq

/-- The payload read by listBlobs: the blob rows and the aggregate size. -/
structure BlobsPayload where
  blobs : List Blob
  blobsSize : Nat
deriving Repr, DecidableEq

/-- One upstream GraphQL request as issued by the server, recording the
operation and the variables the source passes.  Option-typed variables are
the possibly-absent JavaScript values passed verbatim. -/
inductive Call where
  | workspacesQ
  | workspaceInfoQ (workspaceId : Option String)
  | docsQ (workspaceId : Option String) (first : Nat) (after : Option String)
  | searchQ (workspaceId : Option String) (keyword : Option String) (limit : Nat)
  | docMetaQ (workspaceId : Option String) (docId : Option String)
  | publishQ (docId : Option String) (workspaceId : Option String) (mode : String)
  | revokeQ (docId : Option String) (workspaceId : Option String)
  | createCommentQ (input : CommentInput)
  | commentsQ (workspaceId : Option String) (docId : Option String) (first : Nat)
  | resolveCommentQ (commentId : Option String) (resolved : Option Bool)
  | deleteCommentQ (commentId : Option String)
  | advSearchQ (workspaceId : Option String) (query : Option String) (table : String)
      (fields : List String) (limit : Nat) (highlights : Option (List String))
  | historiesQ (workspaceId : Option String) (guid : Option String)
      (before : Option String) (take : Nat)
  | blobsQ (workspaceId : Option String)
  | deleteBlobQ (workspaceId : Option String) (key : Option String) (permanently : Bool)
deriving Repr, DecidableEq

/-- The effect of running a handler: the upstream requests it issued, in
order, and its Except outcome. -/
structure Eff (α : Type) where
  calls : List Call
  result : Except McpErr α
deriving Repr

/-- A pure step: no upstream request, a successful value. -/
def Eff.pureE {α : Type} (a : α) : Eff α := ⟨[], Except.ok a⟩

/-- A throw: no upstream request, the given error. -/
def Eff.throwE {α : Type} (e : McpErr) : Eff α := ⟨[], Except.error e⟩

/-- One upstream request together with the response the oracle gives it. -/
def Eff.callOp {α : Type} (c : Call) (r : Except McpErr α) : Eff α := ⟨[c], r⟩

/-- Sequencing (await): if the first step failed its error propagates and the
continuation never runs (so issues no request). -/
def Eff.bindE {α β : Type} (x : Eff α) (f : α → Eff β) : Eff β :=
  match x.result with
  | Except.error e => ⟨x.calls, Except.error e⟩
  | Except.ok a => ⟨x.calls ++ (f a).calls, (f a).result⟩

/-- A try/catch block: on success the handler is skipped; on failure the
catch handler runs (and may issue further requests). -/
def Eff.tryCatchE {α : Type} (x : Eff α) (h : McpErr → Eff α) : Eff α :=
  match x.result with
  | Except.ok a => ⟨x.calls, Except.ok a⟩
  | Except.error e => ⟨x.calls ++ (h e).calls, (h e).result⟩

/-- The upstream oracle: for every distinct GraphQL operation the server can
issue, the response the remote API would return (already normalized to
Except McpErr by the adapter layer).  Fields mirror the operation list of the
source one for one. -/
structure Upstream where
  workspaces : Except McpErr (List Workspace)
  workspaceInfo : Option String → Except McpErr WorkspaceInfo
  docsConn : Option String → Nat → Option String → Except McpErr DocsConnection
  searchInWs : Option String → Option String → Nat → Except McpErr (List SearchHit)
  docMeta : Option String → Option String → Except McpErr (Option DocMeta)
  publishDoc : Option String → Option String → String → Except McpErr PubDoc
  revokePublicDoc : Option String → Option String → Except McpErr PubDoc
  createComment : CommentInput → Except McpErr CommentNode
  comments : Option String → Option String → Nat → Except McpErr CommentsPage
  resolveComment : Option String → Option Bool → Except McpErr Bool
  deleteComment : Option String → Except McpErr Bool
  advSearch : Option String → Option String → String → List String → Nat →
      Option (List String) → Except McpErr AdvResults
  histories : Option String → Option String → Option String → Nat →
      Except McpErr (List HistoryEntry)
  blobs : Option String → Except McpErr BlobsPayload
  deleteBlob : Option String → Option String → Bool → Except McpErr Bool

/-- JavaScript truthiness of a possibly-absent string: undefined/null and the
empty string are falsy, every other string truthy. -/
def truthyStr : Option String → Bool
  | none => false
  | some s => !(s == "")

/-- JavaScript truthiness of a possibly-absent boolean. -/
def truthyBool : Option Bool → Bool
  | some true => true
  | _ => false

/-- The short-circuit expression a || b of the dispatcher, on possibly-absent
strings (used as args.workspaceId || this.workspaceId). -/
def jsOr (a b : Option String) : Option String := if truthyStr a then a else b

/-- The empty-or-whitespace test of searchDocuments: !query || !query.trim()
(an absent query, the empty string, and whitespace-only strings all pass). -/
def isBlank : Option String → Bool
  | none => true
  | some s => s.trim == ""

/-- Math.ceil(a / b) on natural numbers, as computed by the fan-out search
for its per-workspace limit. -/
def ceilDiv (a b : Nat) : Nat := (a + b - 1) / b

/-- How a JavaScript template literal renders a possibly-absent string. -/
def jsInterp : Option String → String
  | none => ("undefined")
  | some s => s

/-- The fixed diagnostic wrapper the adapter puts around every failure:
Failed to query AFFiNE API [id]: message. -/
def requestFailMsg (requestId msg : String) : String :=
  ("Failed to query AFFiNE API [") ++ requestId ++ ("]: ") ++ msg

/-- The parsed body of one HTTP response from the upstream endpoint: an
optional data payload and an optional errors array (absent or null maps to
none; a present array, even empty, maps to some). -/
structure Envelope (δ : Type) where
  data : Option δ
  errors : Option (List GqlErr)
deriving Repr

/-- What one fetch of the upstream endpoint can produce: a network-level
failure (the fetch promise rejects), or an HTTP response with its status,
status text, raw body text, and parsed JSON envelope. -/
inductive FetchResult (δ : Type) where
  | netError (message : String)
  | httpResponse (status : Nat) (statusText : String) (bodyText : String)
      (env : Envelope δ)
deriving Repr

/-- The adapter makeGraphQLRequest, given the outcome of its single fetch.
Order of checks mirrors the source: response.ok (status 200-299), then the
envelope errors array (joined with comma-space in array order), then the
presence of the data payload; every failure is wrapped in the diagnostic
McpError with the per-call request id. -/
def makeGraphQLRequest {δ : Type} (requestId : String) (resp : FetchResult δ) :
    Except McpErr δ :=
  match resp with
  | FetchResult.netError m =>
      Except.error (McpErr.internalError (requestFailMsg requestId m))
  | FetchResult.httpResponse status statusText bodyText env =>
      if 200 ≤ status ∧ status < 300 then
        match env.errors with
        | some errs =>
            Except.error (McpErr.internalError (requestFailMsg requestId
              (("GraphQL Error: ") ++
                String.intercalate (", ") (errs.map GqlErr.message))))
        | none =>
            match env.data with
            | some d => Except.ok d
            | none =>
                Except.error (McpErr.internalError (requestFailMsg requestId
                  ("GraphQL response missing data field")))
      else
        Except.error (McpErr.internalError (requestFailMsg requestId
          (("HTTP ") ++ toString status ++ (": ") ++ statusText ++ (" - ") ++
            bodyText)))

/-- Structured outcome of a tool handler: one constructor per return site of
the source handlers, carrying the data that return site renders.  Rendering
the markdown text from these payloads is the display concern the spec leaves
out of the core. -/
inductive ToolResult where
  | searchGuidance
  | searchListing (workspaceId : Option String) (docs : List DocNode)
  | searchScoped (keyword : Option String) (hits : List SearchHit)
  | fanoutEmpty (keyword : Option String)
  | fanoutResults (keyword : Option String) (results : List (String × List SearchHit))
  | docNotFound (docId : Option String) (workspaceId : Option String)
  | docDetail (doc : DocMeta)
  | workspacesList (ws : List Workspace)
  | workspaceInfoRes (w : WorkspaceInfo)
  | published (d : PubDoc)
  | unpublished (d : PubDoc)
  | commentCreated (c : CommentNode)
  | commentsEmpty (docId : Option String)
  | commentsList (page : CommentsPage)
  | commentResolved (commentId : Option String) (resolved : Option Bool)
  | commentDeleted (commentId : Option String)
  | advEmpty
  | advList (rs : AdvResults)
  | historyEmpty (docId : Option String) (workspaceId : Option String)
  | historyList (hs : List HistoryEntry)
  | blobsEmpty (workspaceId : Option String) (blobsSize : Nat)
  | blobsList (bs : List Blob) (blobsSize : Nat)
  | blobDeleted (blobKey : Option String) (workspaceId : Option String) (permanently : Bool)
  | listingEmpty (workspaceId : Option String)
  | listing (workspaceId : Option String) (docs : List DocNode)
      (pageInfo : PageInfo) (totalCount : Nat)
deriving Repr, DecidableEq

/-- getWorkspaces: the workspaces query, returning the workspace rows. -/
def getWorkspaces (u : Upstream) : Eff (List Workspace) :=
  Eff.callOp Call.workspacesQ u.workspaces

/-- getWorkspaceDocs: the workspace.docs query with the fixed pagination
first: 50 and no cursor, projected to the edge nodes. -/
def getWorkspaceDocs (u : Upstream) (workspaceId : Option String) :
    Eff (List DocNode) :=
  Eff.bindE (Eff.callOp (Call.docsQ workspaceId 50 none)
      (u.docsConn workspaceId 50 none)) fun conn =>
    Eff.pureE (conn.edges.map DocEdge.node)

/-- The body of the fan-out loop for one workspace: a try block issuing the
per-workspace search; an error is caught and the workspace skipped (continue);
a success contributes its hits only when the hit list is non-empty. -/
def fanoutStep (u : Upstream) (keyword : Option String) (perLimit : Nat)
    (ws : Workspace) : Eff (Option (String × List SearchHit)) :=
  Eff.tryCatchE
    (Eff.bindE (Eff.callOp (Call.searchQ (some ws.id) keyword perLimit)
        (u.searchInWs (some ws.id) keyword perLimit)) fun hits =>
      Eff.pureE (if hits.length > 0 then some (ws.id, hits) else none))
    (fun _ => Eff.pureE none)

/-- The fan-out loop over the accessible workspaces, in order, accumulating
the contributed (workspace id, hits) pairs. -/
def fanoutLoop (u : Upstream) (keyword : Option String) (perLimit : Nat) :
    List Workspace → Eff (List (String × List SearchHit))
  | [] => Eff.pureE []
  | ws :: rest =>
    Eff.bindE (fanoutStep u keyword perLimit ws) fun r =>
      Eff.bindE (fanoutLoop u keyword perLimit rest) fun rs =>
        Eff.pureE (match r with | some p => p :: rs | none => rs)

/-- The spec-side characterization of what the fan-out loop collects: every
workspace whose search errors is dropped, a successful workspace contributes
its hits exactly when non-empty, order preserved. -/
def fanCollect (u : Upstream) (keyword : Option String) (perLimit : Nat)
    (L : List Workspace) : List (String × List SearchHit) :=
  L.filterMap fun ws =>
    match u.searchInWs (some ws.id) keyword perLimit with
    | Except.ok hits => if hits.length > 0 then some (ws.id, hits) else none
    | Except.error _ => none

/-- searchDocuments(query, workspaceId = null, limit = 10).  Blank queries
degrade: with a truthy workspace id they list that workspace, otherwise they
return the guidance payload without touching the network.  Non-blank queries
either search the one workspace or fan out over all workspaces with the
per-workspace limit Math.ceil(limit / workspaces.length), skipping erroring
workspaces, and report the zero-results payload when nothing was collected. -/
def searchDocuments (u : Upstream) (query workspaceId : Option String)
    (limitArg : Option Nat) : Eff ToolResult :=
  let limit := limitArg.getD 10
  if isBlank query then
    if truthyStr workspaceId then
      Eff.bindE (getWorkspaceDocs u workspaceId) fun docs =>
        Eff.pureE (ToolResult.searchListing workspaceId docs)
    else
      Eff.pureE ToolResult.searchGuidance
  else
    if truthyStr workspaceId then
      Eff.bindE (Eff.callOp (Call.searchQ workspaceId query limit)
          (u.searchInWs workspaceId query limit)) fun hits =>
        Eff.pureE (ToolResult.searchScoped query hits)
    else
      Eff.bindE (getWorkspaces u) fun workspaces =>
        Eff.bindE (fanoutLoop u query (ceilDiv limit workspaces.length)
            workspaces) fun allResults =>
          Eff.pureE (if allResults.length = 0 then ToolResult.fanoutEmpty query
            else ToolResult.fanoutResults query allResults)

/-- getDocument(docId, workspaceId): one metadata query; a null document in a
successful response yields the Document-not-found payload (not an error).
The source also builds a content query string but never sends it (document
content is unavailable upstream), so there is no second request. -/
def getDocument (u : Upstream) (docId workspaceId : Option String) :
    Eff ToolResult :=
  Eff.bindE (Eff.callOp (Call.docMetaQ workspaceId docId)
      (u.docMeta workspaceId docId)) fun docOpt =>
    match docOpt with
    | none => Eff.pureE (ToolResult.docNotFound docId workspaceId)
    | some doc => Eff.pureE (ToolResult.docDetail doc)

/-- The Document-not-found text of getDocument, with both ids interpolated. -/
def docNotFoundText (docId workspaceId : Option String) : String :=
  ("❌ Document not found\n\nDocument ID: ") ++ jsInterp docId ++
    ("\nWorkspace ID: ") ++ jsInterp workspaceId

/-- listWorkspaces: the workspaces query rendered as a list. -/
def listWorkspaces (u : Upstream) : Eff ToolResult :=
  Eff.bindE (getWorkspaces u) fun ws =>
    Eff.pureE (ToolResult.workspacesList ws)

/-- getWorkspaceInfo(workspaceId): one workspace detail query; no catch, so
an adapter failure propagates unchanged. -/
def getWorkspaceInfo (u : Upstream) (workspaceId : Option String) :
    Eff ToolResult :=
  Eff.bindE (Eff.callOp (Call.workspaceInfoQ workspaceId)
      (u.workspaceInfo workspaceId)) fun w =>
    Eff.pureE (ToolResult.workspaceInfoRes w)

/-- publishDocument(docId, workspaceId, mode = Page): one mutation inside a
try/catch that rewraps the failure message. -/
def publishDocument (u : Upstream) (docId workspaceId : Option String)
    (modeArg : Option String) : Eff ToolResult :=
  let mode := modeArg.getD ("Page")
  Eff.tryCatchE
    (Eff.bindE (Eff.callOp (Call.publishQ docId workspaceId mode)
        (u.publishDoc docId workspaceId mode)) fun d =>
      Eff.pureE (ToolResult.published d))
    (fun e => Eff.throwE (McpErr.internalError
      (("Failed to publish document: ") ++ e.message)))

/-- unpublishDocument(docId, workspaceId): the revokePublicDoc mutation. -/
def unpublishDocument (u : Upstream) (docId workspaceId : Option String) :
    Eff ToolResult :=
  Eff.tryCatchE
    (Eff.bindE (Eff.callOp (Call.revokeQ docId workspaceId)
        (u.revokePublicDoc docId workspaceId)) fun d =>
      Eff.pureE (ToolResult.unpublished d))
    (fun e => Eff.throwE (McpErr.internalError
      (("Failed to unpublish document: ") ++ e.message)))

/-- createComment(docId, workspaceId, content, docMode = page, docTitle,
mentions = []): builds the input object (mentions || [] keeps a given array,
fills [] for an absent one) and issues one mutation. -/
def createComment (u : Upstream) (docId workspaceId content : Option String)
    (docModeArg : Option String) (docTitle : Option String)
    (mentionsArg : Option (List String)) : Eff ToolResult :=
  let inp : CommentInput :=
    ⟨docId, workspaceId, content, docModeArg.getD ("page"), docTitle,
      mentionsArg.getD []⟩
  Eff.tryCatchE
    (Eff.bindE (Eff.callOp (Call.createCommentQ inp) (u.createComment inp))
      fun c => Eff.pureE (ToolResult.commentCreated c))
    (fun e => Eff.throwE (McpErr.internalError
      (("Failed to create comment: ") ++ e.message)))

/-- getComments(docId, workspaceId, limit = 10): one comments query with
pagination first: limit; an empty node list yields the no-comments payload. -/
def getComments (u : Upstream) (docId workspaceId : Option String)
    (limitArg : Option Nat) : Eff ToolResult :=
  let limit := limitArg.getD 10
  Eff.tryCatchE
    (Eff.bindE (Eff.callOp (Call.commentsQ workspaceId docId limit)
        (u.comments workspaceId docId limit)) fun page =>
      Eff.pureE (if page.nodes.length = 0 then ToolResult.commentsEmpty docId
        else ToolResult.commentsList page))
    (fun e => Eff.throwE (McpErr.internalError
      (("Failed to get comments: ") ++ e.message)))

/-- resolveComment(commentId, resolved): one mutation with id and target
state passed verbatim. -/
def resolveComment (u : Upstream) (commentId : Option String)
    (resolved : Option Bool) : Eff ToolResult :=
  Eff.tryCatchE
    (Eff.bindE (Eff.callOp (Call.resolveCommentQ commentId resolved)
        (u.resolveComment commentId resolved)) fun _ =>
      Eff.pureE (ToolResult.commentResolved commentId resolved))
    (fun e => Eff.throwE (McpErr.internalError
      ((("Failed to ") ++
        (if truthyBool resolved then ("resolve") else ("unresolve")) ++
        (" comment: ")) ++ e.message)))

/-- deleteComment(commentId): one mutation. -/
def deleteComment (u : Upstream) (commentId : Option String) : Eff ToolResult :=
  Eff.tryCatchE
    (Eff.bindE (Eff.callOp (Call.deleteCommentQ commentId)
        (u.deleteComment commentId)) fun _ =>
      Eff.pureE (ToolResult.commentDeleted commentId))
    (fun e => Eff.throwE (McpErr.internalError
      (("Failed to delete comment: ") ++ e.message)))

/-- advancedSearch(workspaceId, query, table = doc, fields = title/content/id,
limit = 10, highlights = []): one search query; the highlights block is put
into the input only when given and non-empty. -/
def advancedSearch (u : Upstream) (workspaceId query tableArg : Option String)
    (fieldsArg : Option (List String)) (limitArg : Option Nat)
    (highlightsArg : Option (List String)) : Eff ToolResult :=
  let table := tableArg.getD ("doc")
  let fields := fieldsArg.getD [("title"), ("content"), ("id")]
  let limit := limitArg.getD 10
  let highlights :=
    match highlightsArg with
    | some hs => if hs.length > 0 then some hs else none
    | none => none
  Eff.tryCatchE
    (Eff.bindE (Eff.callOp
        (Call.advSearchQ workspaceId query table fields limit highlights)
        (u.advSearch workspaceId query table fields limit highlights)) fun rs =>
      Eff.pureE (if rs.nodes.length = 0 then ToolResult.advEmpty
        else ToolResult.advList rs))
    (fun e => Eff.throwE (McpErr.internalError
      (("Advanced search failed: ") ++ e.message)))

/-- getDocumentHistory(docId, workspaceId, before = null, limit = 10): one
histories query with take: limit; the before variable is sent only when the
argument is truthy; an empty entry list is the valid no-history payload. -/
def getDocumentHistory (u : Upstream) (docId workspaceId before : Option String)
    (limitArg : Option Nat) : Eff ToolResult :=
  let limit := limitArg.getD 10
  let beforeVar := if truthyStr before then before else none
  Eff.tryCatchE
    (Eff.bindE (Eff.callOp (Call.historiesQ workspaceId docId beforeVar limit)
        (u.histories workspaceId docId beforeVar limit)) fun hs =>
      Eff.pureE (if hs.length = 0 then
        ToolResult.historyEmpty docId workspaceId
        else ToolResult.historyList hs))
    (fun e => Eff.throwE (McpErr.internalError
      (("Failed to get document history: ") ++ e.message)))

/-- listBlobs(workspaceId): one blobs query returning rows and aggregate
size. -/
def listBlobs (u : Upstream) (workspaceId : Option String) : Eff ToolResult :=
  Eff.tryCatchE
    (Eff.bindE (Eff.callOp (Call.blobsQ workspaceId) (u.blobs workspaceId))
      fun payload =>
        Eff.pureE (if payload.blobs.length = 0 then
          ToolResult.blobsEmpty workspaceId payload.blobsSize
          else ToolResult.blobsList payload.blobs payload.blobsSize))
    (fun e => Eff.throwE (McpErr.internalError
      (("Failed to list blobs: ") ++ e.message)))

/-- deleteBlob(workspaceId, blobKey, permanently = false): one mutation with
the flag passed through verbatim after its default. -/
def deleteBlob (u : Upstream) (workspaceId blobKey : Option String)
    (permanentlyArg : Option Bool) : Eff ToolResult :=
  let permanently := permanentlyArg.getD false
  Eff.tryCatchE
    (Eff.bindE (Eff.callOp (Call.deleteBlobQ workspaceId blobKey permanently)
        (u.deleteBlob workspaceId blobKey permanently)) fun _ =>
      Eff.pureE (ToolResult.blobDeleted blobKey workspaceId permanently))
    (fun e => Eff.throwE (McpErr.internalError
      (("Failed to delete blob: ") ++ e.message)))

/-- listDocuments(workspaceId, limit = 50, cursor = null): one docs query
with pagination first: limit, the after token present only for a truthy
cursor; an empty page yields the no-documents payload. -/
def listDocuments (u : Upstream) (workspaceId : Option String)
    (limitArg : Option Nat) (cursor : Option String) : Eff ToolResult :=
  let limit := limitArg.getD 50
  let after := if truthyStr cursor then cursor else none
  Eff.tryCatchE
    (Eff.bindE (Eff.callOp (Call.docsQ workspaceId limit after)
        (u.docsConn workspaceId limit after)) fun conn =>
      let documents := conn.edges.map DocEdge.node
      Eff.pureE (if documents.length = 0 then ToolResult.listingEmpty workspaceId
        else ToolResult.listing workspaceId documents conn.pageInfo
          conn.totalCount))
    (fun e => Eff.throwE (McpErr.internalError
      (("Failed to list documents: ") ++ e.message)))

/-- The immutable configuration captured at startup (validateEnvironment):
base address, required credential, optional default workspace id. -/
structure Config where
  apiUrl : String
  accessToken : String
  workspaceId : Option String
deriving Repr, DecidableEq

/-- The parsed arguments object of one tool call; every field is absent
unless the client sent it. -/
structure ToolArgs where
  query : Option String
  workspaceId : Option String
  limit : Option Nat
  docId : Option String
  mode : Option String
  content : Option String
  docMode : Option String
  docTitle : Option String
  mentions : Option (List String)
  commentId : Option String
  resolved : Option Bool
  table : Option String
  fields : Option (List String)
  highlights : Option (List String)
  before : Option String
  cursor : Option String
  blobKey : Option String
  permanently : Option Bool
deriving Repr, DecidableEq

/-- An arguments object with every field absent. -/
def emptyArgs : ToolArgs :=
  ⟨none, none, none, none, none, none, none, none, none, none, none, none,
    none, none, none, none, none, none⟩

/-- The declared tool names of the registry, in declaration order. -/
def toolNames : List String :=
  [("search_documents"), ("get_document"), ("list_workspaces"),
    ("get_workspace_info"), ("publish_document"), ("unpublish_document"),
    ("create_comment"), ("get_comments"), ("resolve_comment"),
    ("delete_comment"), ("advanced_search"), ("get_document_history"),
    ("list_blobs"), ("delete_blob"), ("list_documents")]

/-- The CallTool dispatcher: routes a tool name to its handler, substituting
the configured default workspace id for a falsy workspaceId argument
(args.workspaceId || this.workspaceId) on every workspace-taking tool; an
unknown name raises the MethodNotFound error without touching the adapter. -/
def callTool (cfg : Config) (u : Upstream) (name : String) (args : ToolArgs) :
    Eff ToolResult :=
  if name = ("search_documents") then
    searchDocuments u args.query (jsOr args.workspaceId cfg.workspaceId)
      args.limit
  else if name = ("get_document") then
    getDocument u args.docId (jsOr args.workspaceId cfg.workspaceId)
  else if name = ("list_workspaces") then
    listWorkspaces u
  else if name = ("get_workspace_info") then
    getWorkspaceInfo u (jsOr args.workspaceId cfg.workspaceId)
  else if name = ("publish_document") then
    publishDocument u args.docId (jsOr args.workspaceId cfg.workspaceId)
      args.mode
  else if name = ("unpublish_document") then
    unpublishDocument u args.docId (jsOr args.workspaceId cfg.workspaceId)
  else if name = ("create_comment") then
    createComment u args.docId (jsOr args.workspaceId cfg.workspaceId)
      args.content args.docMode args.docTitle args.mentions
  else if name = ("get_comments") then
    getComments u args.docId (jsOr args.workspaceId cfg.workspaceId) args.limit
  else if name = ("resolve_comment") then
    resolveComment u args.commentId args.resolved
  else if name = ("delete_comment") then
    deleteComment u args.commentId
  else if name = ("advanced_search") then
    advancedSearch u (jsOr args.workspaceId cfg.workspaceId) args.query
      args.table args.fields args.limit args.highlights
  else if name = ("get_document_history") then
    getDocumentHistory u args.docId (jsOr args.workspaceId cfg.workspaceId)
      args.before args.limit
  else if name = ("list_blobs") then
    listBlobs u (jsOr args.workspaceId cfg.workspaceId)
  else if name = ("delete_blob") then
    deleteBlob u (jsOr args.workspaceId cfg.workspaceId) args.blobKey
      args.permanently
  else if name = ("list_documents") then
    listDocuments u (jsOr args.workspaceId cfg.workspaceId) args.limit
      args.cursor
  else
    Eff.throwE (McpErr.methodNotFound (("Unknown tool: ") ++ name))

/-- The parts of an affine: URI the resolver reads: the URL hostname, the
non-empty pathname segments, and the q query parameter when present. -/
structure ResUrl where
  hostname : String
  pathParts : List String
  q : Option String
deriving Repr, DecidableEq

/-- Structured outcome of the resource resolver: one constructor per return
site of handleAFFiNEResource. -/
inductive ResourceOutcome where
  | wsDetail (r : ToolResult)
  | wsFallback (workspaceId : String) (docs : List DocNode)
  | wsDocs (docs : List DocNode)
  | searchGuide
  | searchRes (r : ToolResult)
deriving Repr, DecidableEq

/-- handleAFFiNEResource: the URI resolver.  workspace/{id}/docs lists the
documents; workspace/{id} tries the workspace detail first and, only when
that call failed, falls back to listing documents (wrapped with an
explanatory note); when the fallback also fails, the ORIGINAL detail error is
rethrown.  search without a usable q returns the guidance payload; with one,
it delegates to searchDocuments with its defaults.  Anything else raises the
InvalidRequest error. -/
def handleAFFiNEResource (u : Upstream) (url : ResUrl) : Eff ResourceOutcome :=
  if url.hostname = ("workspace") ∧ 0 < url.pathParts.length then
    let workspaceId := url.pathParts.headD ("")
    if 1 < url.pathParts.length ∧ url.pathParts.getD 1 ("") = ("docs") then
      Eff.bindE (getWorkspaceDocs u (some workspaceId)) fun docs =>
        Eff.pureE (ResourceOutcome.wsDocs docs)
    else
      Eff.tryCatchE
        (Eff.bindE (getWorkspaceInfo u (some workspaceId)) fun info =>
          Eff.pureE (ResourceOutcome.wsDetail info))
        (fun e =>
          Eff.tryCatchE
            (Eff.bindE (getWorkspaceDocs u (some workspaceId)) fun docs =>
              Eff.pureE (ResourceOutcome.wsFallback workspaceId docs))
            (fun _ => Eff.throwE e))
  else if url.hostname = ("search") then
    let query := url.q.getD ("")
    if query.trim = ("") then
      Eff.pureE ResourceOutcome.searchGuide
    else
      Eff.bindE (searchDocuments u (some query) none none) fun r =>
        Eff.pureE (ResourceOutcome.searchRes r)
  else
    Eff.throwE (McpErr.invalidRequest
      (("Unknown resource format. Expected affine://workspace/") ++
        ("{id} or affine://search?q=query")))

/-- The document list carried by a listing-shaped tool result (empty for the
explicit empty-listing payload and for non-listing results). -/
def listedDocs : ToolResult → List DocNode
  | ToolResult.searchListing _ docs => docs
  | ToolResult.listing _ docs _ _ => docs
  | _ => []

/-! Concrete fixtures used to evaluate the theorems at explicit inputs. -/

/-- Fixture workspace A. -/
def wsA : Workspace := ⟨("wsA"), false, ("2024-01-01")⟩

/-- Fixture workspace B. -/
def wsB : Workspace := ⟨("wsB"), false, ("2024-01-02")⟩

/-- Fixture document node. -/
def nodeA : DocNode :=
  ⟨("docA"), some ("Plan"), ("2024-02-01"), ("2024-02-02"), false, ("page"),
    none⟩

/-- Fixture docs connection holding the one node. -/
def connA : DocsConnection :=
  ⟨[⟨("cur1"), nodeA⟩], ⟨false, false, some ("cur1"), some ("cur1")⟩, 1⟩

/-- Fixture search hit in workspace B. -/
def hitB : SearchHit :=
  ⟨("docB"), ("Notes"), ("meeting notes"), ("2024-03-01"), ("2024-03-02")⟩

/-- Fixture workspace detail. -/
def infoA : WorkspaceInfo :=
  ⟨("wsA"), false, ("2024-01-01"), 2, ("Pro"), 100, 10, 5, 2, ("Owner"),
    ("owner@example.com")⟩

/-- Fixture document metadata. -/
def metaA : DocMeta :=
  ⟨("docA"), some ("Plan"), ("2024-02-01"), ("2024-02-02"), some ("Owner"),
    some ("Owner"), ("page"), false, true, true, false⟩

/-- Fixture published-doc payload. -/
def pubA : PubDoc := ⟨("docA"), some ("Plan"), true, ("Page"), true, true⟩

/-- Fixture comment node. -/
def commentA : CommentNode :=
  ⟨("c1"), some ("hi"), ("2024-04-01"), false, ("Owner"), 0⟩

/-- Fixture error of a failing workspace detail call. -/
def eInfo : McpErr := McpErr.internalError ("workspace detail failed")

/-- Fixture error of a failing docs listing call. -/
def eDocs : McpErr := McpErr.internalError ("docs listing failed")

/-- Fixture error of a failing per-workspace search call. -/
def eSearch : McpErr := McpErr.internalError ("search failed")

/-- A fixture oracle on which every operation succeeds with the fixtures
above; the per-workspace search fails for workspace A and returns the one
hit elsewhere. -/
def baseU : Upstream where
  workspaces := Except.ok [wsA, wsB]
  workspaceInfo := fun _ => Except.ok infoA
  docsConn := fun _ _ _ => Except.ok connA
  searchInWs := fun w _ _ =>
    if w = some ("wsA") then Except.error eSearch else Except.ok [hitB]
  docMeta := fun _ _ => Except.ok (some metaA)
  publishDoc := fun _ _ _ => Except.ok pubA
  revokePublicDoc := fun _ _ => Except.ok pubA
  createComment := fun _ => Except.ok commentA
  comments := fun _ _ _ => Except.ok ⟨[commentA], 1, false, false⟩
  resolveComment := fun _ _ => Except.ok true
  deleteComment := fun _ => Except.ok true
  advSearch := fun _ _ _ _ _ _ => Except.ok ⟨[], 0, false⟩
  histories := fun _ _ _ _ => Except.ok []
  blobs := fun _ => Except.ok ⟨[], 0⟩
  deleteBlob := fun _ _ _ => Except.ok true

/-- Fixture oracle on which both the workspace detail call and the docs
listing call fail, with distinct errors. -/
def uBothFail : Upstream :=
  { baseU with
      workspaceInfo := fun _ => Except.error eInfo
      docsConn := fun _ _ _ => Except.error eDocs }

/-- Fixture oracle on which the metadata fetch succeeds with a null
document. -/
def uNullDoc : Upstream :=
  { baseU with docMeta := fun _ _ => Except.ok none }

/-- Fixture configuration with a default workspace id. -/
def cfgA : Config := ⟨("https://app.affine.pro"), ("token"), some ("wsA")⟩

/-! Helper lemmas shared by the claim theorems.  The first group evaluates
String.trim on the concrete strings the witnesses use (trim is defined by
well-founded recursion, so the kernel cannot evaluate it directly). -/

/-- Evaluation step: no whitespace is skipped at the start of note. -/
theorem tw_note :
    Substring.takeWhileAux ("note") ("note").endPos Char.isWhitespace 0 = 0 := by
  rw [Substring.takeWhileAux]
  split
  · rw [if_neg (by decide)]
  · rfl

/-- Evaluation step: no whitespace is dropped at the end of note. -/
theorem tr_note :
    Substring.takeRightWhileAux ("note") 0 Char.isWhitespace ("note").endPos =
      ("note").endPos := by
  rw [Substring.takeRightWhileAux]
  split
  · rw [if_pos (by decide)]
  · rfl

/-- The string note trims to itself. -/
theorem trim_note : ("note").trim = ("note") := by
  simp [String.trim, Substring.trim, String.toSubstring, tw_note, tr_note]
  rfl

/-- Evaluation step: the whole one-space string is skipped as whitespace. -/
theorem tw_space :
    Substring.takeWhileAux (" ") (" ").endPos Char.isWhitespace 0 =
      (" ").endPos := by
  rw [Substring.takeWhileAux]
  split
  · rw [if_pos (by decide)]
    rw [Substring.takeWhileAux]
    split
    · next h => exact absurd h (by decide)
    · rfl
  · next h => exact absurd (by decide) h

/-- Evaluation step: the right scan of the one-space string stops at once. -/
theorem tr_space :
    Substring.takeRightWhileAux (" ") (" ").endPos Char.isWhitespace
      (" ").endPos = (" ").endPos := by
  rw [Substring.takeRightWhileAux]
  split
  · next h => exact absurd h (by decide)
  · rfl

/-- The one-space string trims to the empty string. -/
theorem trim_space : (" ").trim = ("") := by
  simp [String.trim, Substring.trim, String.toSubstring, tw_space, tr_space]
  rfl

/-- Evaluation step: the left scan of the empty string stops at once. -/
theorem tw_empty : Substring.takeWhileAux ("") 0 Char.isWhitespace 0 = 0 := by
  rw [Substring.takeWhileAux]
  split
  · next h => exact absurd h (by decide)
  · rfl

/-- Evaluation step: the right scan of the empty string stops at once. -/
theorem tr_empty :
    Substring.takeRightWhileAux ("") 0 Char.isWhitespace 0 = 0 := by
  rw [Substring.takeRightWhileAux]
  split
  · next h => exact absurd h (by decide)
  · rfl

/-- The empty string trims to itself. -/
theorem trim_empty : ("").trim = ("") := by
  simp [String.trim, Substring.trim, String.toSubstring, tw_empty, tr_empty]
  rfl

/-- A non-empty string is truthy. -/
theorem truthyStr_some_of_ne (s : String) (h : s ≠ ("")) :
    truthyStr (some s) = true := by
  simp [truthyStr, h]

/-- The fan-out loop issues exactly one search per workspace, in order, never
fails, and collects exactly fanCollect. -/
theorem fanoutLoop_eq (u : Upstream) (k : Option String) (p : Nat)
    (L : List Workspace) :
    fanoutLoop u k p L =
      ⟨L.map (fun ws => Call.searchQ (some ws.id) k p),
        Except.ok (fanCollect u k p L)⟩ := by
  induction L with
  | nil => rfl
  | cons ws rest ih =>
    cases hws : u.searchInWs (some ws.id) k p with
    | error e =>
        simp [fanoutLoop, fanoutStep, Eff.bindE, Eff.tryCatchE, Eff.callOp,
          Eff.pureE, fanCollect, hws, ih, List.filterMap_cons]
    | ok hits =>
        by_cases hh : hits.length > 0 <;>
          simp [fanoutLoop, fanoutStep, Eff.bindE, Eff.tryCatchE, Eff.callOp,
            Eff.pureE, fanCollect, hws, ih, List.filterMap_cons, hh]

/-- ceilDiv is the ceiling of the division: it is the least m with
a ≤ b * m. -/
theorem ceilDiv_le_iff (a b m : Nat) (hb : 0 < b) :
    ceilDiv a b ≤ m ↔ a ≤ b * m := by
  unfold ceilDiv
  rw [Nat.div_le_iff_le_mul_add_pred hb, Nat.add_sub_assoc hb,
    Nat.add_le_add_iff_right]

/-! Claim theorems. -/

/-- C3: a searchDocuments call with an empty or whitespace-only query and no
workspace id issues zero upstream requests and succeeds with the guidance
payload, not an error. -/
theorem empty_query_without_workspace_short_circuits (u : Upstream)
    (q : Option String) (lim : Option Nat) (hq : isBlank q = true) :
    searchDocuments u q none lim = ⟨[], Except.ok ToolResult.searchGuidance⟩ := by
  simp [searchDocuments, hq, truthyStr, Eff.pureE]

/-- C3 witness: the guidance short-circuit at a whitespace-only query. -/
theorem empty_query_without_workspace_short_circuits_witness :
    searchDocuments baseU (some (" ")) none none =
      ⟨[], Except.ok ToolResult.searchGuidance⟩ :=
  empty_query_without_workspace_short_circuits baseU (some (" ")) none
    (by simp [isBlank, trim_space])

/-- C1: resolving affine://workspace/w (no docs suffix) attempts the
workspace-detail fetch first; the document-listing fallback is issued if and
only if that detail fetch failed; and when both fail, the surfaced error is
the original workspace-detail error. -/
theorem resource_workspace_detail_fallback (u : Upstream) (w : String) :
    ((handleAFFiNEResource u ⟨("workspace"), [w], none⟩).calls.head? =
        some (Call.workspaceInfoQ (some w)))
    ∧ (Call.docsQ (some w) 50 none ∈
          (handleAFFiNEResource u ⟨("workspace"), [w], none⟩).calls
        ↔ ∃ e, u.workspaceInfo (some w) = Except.error e)
    ∧ (∀ e₁ e₂, u.workspaceInfo (some w) = Except.error e₁ →
        u.docsConn (some w) 50 none = Except.error e₂ →
        (handleAFFiNEResource u ⟨("workspace"), [w], none⟩).result =
          Except.error e₁) := by
  cases hinfo : u.workspaceInfo (some w) with
  | ok v =>
      have hr : handleAFFiNEResource u ⟨("workspace"), [w], none⟩ =
          ⟨[Call.workspaceInfoQ (some w)],
            Except.ok (ResourceOutcome.wsDetail (ToolResult.workspaceInfoRes v))⟩ := by
        simp [handleAFFiNEResource, getWorkspaceInfo, Eff.bindE, Eff.callOp,
          Eff.tryCatchE, Eff.pureE, hinfo]
      refine ⟨by rw [hr]; rfl, by rw [hr]; simp [hinfo], ?_⟩
      intro e₁ e₂ h₁ h₂
      exact absurd h₁ (by simp)
  | error e =>
      cases hdocs : u.docsConn (some w) 50 none with
      | ok conn =>
          have hr : handleAFFiNEResource u ⟨("workspace"), [w], none⟩ =
              ⟨[Call.workspaceInfoQ (some w), Call.docsQ (some w) 50 none],
                Except.ok (ResourceOutcome.wsFallback w
                  (conn.edges.map DocEdge.node))⟩ := by
            simp [handleAFFiNEResource, getWorkspaceInfo, getWorkspaceDocs,
              Eff.bindE, Eff.callOp, Eff.tryCatchE, Eff.pureE, hinfo, hdocs]
          refine ⟨by rw [hr]; rfl, by rw [hr]; simp [hinfo], ?_⟩
          intro e₁ e₂ h₁ h₂
          exact absurd h₂ (by simp)
      | error e₂ =>
          have hr : handleAFFiNEResource u ⟨("workspace"), [w], none⟩ =
              ⟨[Call.workspaceInfoQ (some w), Call.docsQ (some w) 50 none],
                Except.error e⟩ := by
            simp [handleAFFiNEResource, getWorkspaceInfo, getWorkspaceDocs,
              Eff.bindE, Eff.callOp, Eff.tryCatchE, Eff.pureE, Eff.throwE,
              hinfo, hdocs]
          refine ⟨by rw [hr]; rfl, by rw [hr]; simp [hinfo], ?_⟩
          intro e₁ e₃ h₁ h₃
          injection h₁ with he
          rw [hr, ← he]

/-- C1 witness: with both the detail fetch and the fallback listing failing,
the surfaced error is the workspace-detail one. -/
theorem resource_workspace_detail_fallback_witness :
    (handleAFFiNEResource uBothFail ⟨("workspace"), [("w1")], none⟩).result =
      Except.error eInfo :=
  (resource_workspace_detail_fallback uBothFail ("w1")).2.2 eInfo eDocs rfl rfl

/-- C2: the fan-out search issues one search per accessible workspace;
workspaces whose search errors (or has no hits) are dropped from the combined
result while the others remain; the call always succeeds, reporting the
zero-results payload when nothing was collected. -/
theorem fanout_search_skips_failing_workspaces (u : Upstream) (q : String)
    (lim : Option Nat) (L : List Workspace)
    (hq : isBlank (some q) = false) (hw : u.workspaces = Except.ok L) :
    searchDocuments u (some q) none lim =
      ⟨Call.workspacesQ ::
          L.map (fun ws => Call.searchQ (some ws.id) (some q)
            (ceilDiv (lim.getD 10) L.length)),
        Except.ok
          (if (fanCollect u (some q) (ceilDiv (lim.getD 10) L.length) L).length = 0
            then ToolResult.fanoutEmpty (some q)
            else ToolResult.fanoutResults (some q)
              (fanCollect u (some q) (ceilDiv (lim.getD 10) L.length) L))⟩ := by
  simp [searchDocuments, hq, truthyStr, getWorkspaces, Eff.bindE, Eff.callOp,
    Eff.pureE, hw, fanoutLoop_eq]

/-- C2 witness: with workspace A erroring and workspace B returning one hit,
the combined result holds exactly the hits of B and the call succeeds. -/
theorem fanout_search_skips_failing_workspaces_witness :
    searchDocuments baseU (some ("note")) none none =
      ⟨[Call.workspacesQ, Call.searchQ (some ("wsA")) (some ("note")) 5,
          Call.searchQ (some ("wsB")) (some ("note")) 5],
        Except.ok (ToolResult.fanoutResults (some ("note"))
          [(("wsB"), [hitB])])⟩ := by
  have h := fanout_search_skips_failing_workspaces baseU ("note") none
    [wsA, wsB] (by simp [isBlank, trim_note]) rfl
  rw [h]
  rfl

/-- C6: every per-workspace search of the fan-out is issued with the limit
Math.ceil(requested / workspaceCount), and ceilDiv is indeed the ceiling of
that division (the least m with requested ≤ count * m). -/
theorem fanout_per_workspace_limit_is_ceil (u : Upstream) (q : String)
    (lim : Option Nat) (L : List Workspace)
    (hq : isBlank (some q) = false) (hw : u.workspaces = Except.ok L)
    (hN : 0 < L.length) :
    ((searchDocuments u (some q) none lim).calls =
        Call.workspacesQ ::
          L.map (fun ws => Call.searchQ (some ws.id) (some q)
            (ceilDiv (lim.getD 10) L.length)))
    ∧ (∀ m : Nat,
        ceilDiv (lim.getD 10) L.length ≤ m ↔ lim.getD 10 ≤ L.length * m) := by
  constructor
  · simp [searchDocuments, hq, truthyStr, getWorkspaces, Eff.bindE, Eff.callOp,
      Eff.pureE, hw, fanoutLoop_eq]
  · intro m
    exact ceilDiv_le_iff (lim.getD 10) L.length m hN

/-- C6 witness: two workspaces and the default requested limit 10 issue both
searches with limit ceilDiv 10 2 = 5, the ceiling of 10 / 2. -/
theorem fanout_per_workspace_limit_is_ceil_witness :
    ((searchDocuments baseU (some ("note")) none none).calls =
        [Call.workspacesQ, Call.searchQ (some ("wsA")) (some ("note")) 5,
          Call.searchQ (some ("wsB")) (some ("note")) 5])
    ∧ (ceilDiv 10 2 ≤ 5 ↔ 10 ≤ 2 * 5) := by
  have h := fanout_per_workspace_limit_is_ceil baseU ("note") none [wsA, wsB]
    (by simp [isBlank, trim_note]) rfl (by decide)
  exact ⟨by rw [h.1]; rfl, h.2 5⟩

/-- C4: with a blank query and a workspace id, searchDocuments issues the
same upstream docs query (first page of 50, no cursor) as listDocuments with
its defaults, and whenever both succeed they carry the same document list. -/
theorem empty_query_with_workspace_matches_listing (u : Upstream)
    (W : String) (q : Option String)
    (hq : isBlank q = true) (hW : W ≠ ("")) :
    ((searchDocuments u q (some W) none).calls =
        [Call.docsQ (some W) 50 none]
      ∧ (listDocuments u (some W) none none).calls =
        [Call.docsQ (some W) 50 none])
    ∧ ∀ r₁ r₂,
        (searchDocuments u q (some W) none).result = Except.ok r₁ →
        (listDocuments u (some W) none none).result = Except.ok r₂ →
        listedDocs r₁ = listedDocs r₂ := by
  have ht := truthyStr_some_of_ne W hW
  cases hconn : u.docsConn (some W) 50 none with
  | error e =>
      have h₁ : searchDocuments u q (some W) none =
          ⟨[Call.docsQ (some W) 50 none], Except.error e⟩ := by
        simp [searchDocuments, getWorkspaceDocs, hq, ht, Eff.bindE, Eff.callOp,
          Eff.pureE, hconn]
      have h₂ : listDocuments u (some W) none none =
          ⟨[Call.docsQ (some W) 50 none],
            Except.error (McpErr.internalError
              (("Failed to list documents: ") ++ e.message))⟩ := by
        simp [listDocuments, truthyStr, Eff.bindE, Eff.callOp, Eff.pureE,
          Eff.tryCatchE, Eff.throwE, hconn]
      refine ⟨⟨by rw [h₁], by rw [h₂]⟩, ?_⟩
      intro r₁ r₂ hr₁ hr₂
      rw [h₁] at hr₁
      exact absurd hr₁ (by simp)
  | ok conn =>
      have h₁ : searchDocuments u q (some W) none =
          ⟨[Call.docsQ (some W) 50 none],
            Except.ok (ToolResult.searchListing (some W)
              (conn.edges.map DocEdge.node))⟩ := by
        simp [searchDocuments, getWorkspaceDocs, hq, ht, Eff.bindE, Eff.callOp,
          Eff.pureE, hconn]
      have h₂ : listDocuments u (some W) none none =
          ⟨[Call.docsQ (some W) 50 none],
            Except.ok (if (conn.edges.map DocEdge.node).length = 0 then
              ToolResult.listingEmpty (some W)
              else ToolResult.listing (some W) (conn.edges.map DocEdge.node)
                conn.pageInfo conn.totalCount)⟩ := by
        simp [listDocuments, truthyStr, Eff.bindE, Eff.callOp, Eff.pureE,
          Eff.tryCatchE, hconn]
      refine ⟨⟨by rw [h₁], by rw [h₂]⟩, ?_⟩
      intro r₁ r₂ hr₁ hr₂
      rw [h₁] at hr₁
      rw [h₂] at hr₂
      simp only [Except.ok.injEq] at hr₁ hr₂
      subst hr₁
      by_cases hlen : (conn.edges.map DocEdge.node).length = 0
      · rw [if_pos hlen] at hr₂
        subst hr₂
        simp [listedDocs, List.length_eq_zero.mp hlen]
      · rw [if_neg hlen] at hr₂
        subst hr₂
        simp [listedDocs]

/-- C4 witness: at the fixture oracle both operations succeed and carry the
same one-document list. -/
theorem empty_query_with_workspace_matches_listing_witness :
    listedDocs (ToolResult.searchListing (some ("wsA")) [nodeA]) =
      listedDocs (ToolResult.listing (some ("wsA")) [nodeA] connA.pageInfo 1) := by
  have h := empty_query_with_workspace_matches_listing baseU ("wsA") none
    rfl (by decide)
  exact h.2 (ToolResult.searchListing (some ("wsA")) [nodeA])
    (ToolResult.listing (some ("wsA")) [nodeA] connA.pageInfo 1) rfl rfl

/-- C5: a 2xx upstream response whose envelope carries a (non-empty) errors
array makes the adapter fail, with the error messages joined by a comma in
array order inside the diagnostic wrapper. -/
theorem application_errors_comma_joined (δ : Type) (reqId statusText body : String)
    (status : Nat) (errs : List GqlErr) (d : Option δ)
    (hok : 200 ≤ status ∧ status < 300) (_hne : errs ≠ []) :
    makeGraphQLRequest reqId
        (FetchResult.httpResponse status statusText body ⟨d, some errs⟩) =
      Except.error (McpErr.internalError (requestFailMsg reqId
        (("GraphQL Error: ") ++
          String.intercalate (", ") (errs.map GqlErr.message)))) := by
  simp [makeGraphQLRequest, hok]

/-- C5 witness: two application errors are joined as boom A, boom B. -/
theorem application_errors_comma_joined_witness :
    makeGraphQLRequest ("r1")
        (FetchResult.httpResponse 200 ("OK") ("")
          (⟨(none : Option Nat), some [⟨("boom A")⟩, ⟨("boom B")⟩]⟩)) =
      Except.error (McpErr.internalError
        ("Failed to query AFFiNE API [r1]: GraphQL Error: boom A, boom B")) := by
  have h := application_errors_comma_joined Nat ("r1") ("OK") ("") 200
    [⟨("boom A")⟩, ⟨("boom B")⟩] none (by decide) (by decide)
  rw [h]
  rfl

/-- C8: a tool name outside the declared registry fails with the unknown-tool
error naming the tool, and no upstream request is issued. -/
theorem unknown_tool_never_reaches_adapter (cfg : Config) (u : Upstream)
    (name : String) (args : ToolArgs) (hn : name ∉ toolNames) :
    callTool cfg u name args =
      ⟨[], Except.error (McpErr.methodNotFound (("Unknown tool: ") ++ name))⟩ := by
  simp only [toolNames, List.mem_cons, List.not_mem_nil, or_false, not_or] at hn
  obtain ⟨h1, h2, h3, h4, h5, h6, h7, h8, h9, h10, h11, h12, h13, h14, h15⟩ := hn
  simp [callTool, h1, h2, h3, h4, h5, h6, h7, h8, h9, h10, h11, h12, h13, h14,
    h15, Eff.throwE]

/-- C8 witness: the name does_not_exist is rejected without any upstream
request. -/
theorem unknown_tool_never_reaches_adapter_witness :
    callTool cfgA baseU ("does_not_exist") emptyArgs =
      ⟨[], Except.error (McpErr.methodNotFound ("Unknown tool: does_not_exist"))⟩ := by
  have h := unknown_tool_never_reaches_adapter cfgA baseU ("does_not_exist")
    emptyArgs (by decide)
  rw [h]
  rfl

/-- C7: absent limit arguments are defaulted by the handlers themselves,
before the upstream call is issued: 10 for search, comments and history, 50
for document listing; and an absent cursor sends no continuation token
upstream (the first page is fetched). -/
theorem handler_limit_defaults (u : Upstream) (q w d : String)
    (hq : isBlank (some q) = false) (hw : w ≠ ("")) :
    ((searchDocuments u (some q) (some w) none).calls =
        [Call.searchQ (some w) (some q) 10])
    ∧ ((getComments u (some d) (some w) none).calls =
        [Call.commentsQ (some w) (some d) 10])
    ∧ ((getDocumentHistory u (some d) (some w) none none).calls =
        [Call.historiesQ (some w) (some d) none 10])
    ∧ ((listDocuments u (some w) none none).calls =
        [Call.docsQ (some w) 50 none]) := by
  have ht := truthyStr_some_of_ne w hw
  refine ⟨?_, ?_, ?_, ?_⟩
  · cases hs : u.searchInWs (some w) (some q) 10 <;>
      simp [searchDocuments, hq, ht, Eff.bindE, Eff.callOp, Eff.pureE, hs]
  · cases hc : u.comments (some w) (some d) 10 <;>
      simp [getComments, Eff.bindE, Eff.callOp, Eff.pureE, Eff.tryCatchE,
        Eff.throwE, hc]
  · cases hh : u.histories (some w) (some d) none 10 <;>
      simp [getDocumentHistory, truthyStr, Eff.bindE, Eff.callOp, Eff.pureE,
        Eff.tryCatchE, Eff.throwE, hh]
  · cases hd : u.docsConn (some w) 50 none <;>
      simp [listDocuments, truthyStr, Eff.bindE, Eff.callOp, Eff.pureE,
        Eff.tryCatchE, Eff.throwE, hd]

/-- C7 witness: the four default limits at concrete arguments. -/
theorem handler_limit_defaults_witness :
    ((searchDocuments baseU (some ("note")) (some ("wsB")) none).calls =
        [Call.searchQ (some ("wsB")) (some ("note")) 10])
    ∧ ((getComments baseU (some ("d1")) (some ("wsB")) none).calls =
        [Call.commentsQ (some ("wsB")) (some ("d1")) 10])
    ∧ ((getDocumentHistory baseU (some ("d1")) (some ("wsB")) none none).calls =
        [Call.historiesQ (some ("wsB")) (some ("d1")) none 10])
    ∧ ((listDocuments baseU (some ("wsB")) none none).calls =
        [Call.docsQ (some ("wsB")) 50 none]) :=
  handler_limit_defaults baseU ("note") ("wsB") ("d1")
    (by simp [isBlank, trim_note]) (by decide)

/-- C9: every workspaceId-taking dispatch entry of the registry invokes its
handler with args.workspaceId || configured default, so a falsy argument
falls back to the configured default on each of those tools, and a handler
sees a falsy workspace id only when both the argument and the default are
falsy.  In particular search_documents with a blank query, a falsy
workspaceId argument and a configured default workspace degrades to listing
that workspace, issuing the upstream docs call. -/
theorem falsy_workspace_arg_falls_back_to_config (cfg : Config) (u : Upstream)
    (args : ToolArgs) :
    ((callTool cfg u ("search_documents") args =
        searchDocuments u args.query (jsOr args.workspaceId cfg.workspaceId)
          args.limit)
      ∧ (callTool cfg u ("get_document") args =
        getDocument u args.docId (jsOr args.workspaceId cfg.workspaceId))
      ∧ (callTool cfg u ("get_workspace_info") args =
        getWorkspaceInfo u (jsOr args.workspaceId cfg.workspaceId))
      ∧ (callTool cfg u ("publish_document") args =
        publishDocument u args.docId (jsOr args.workspaceId cfg.workspaceId)
          args.mode)
      ∧ (callTool cfg u ("unpublish_document") args =
        unpublishDocument u args.docId (jsOr args.workspaceId cfg.workspaceId))
      ∧ (callTool cfg u ("create_comment") args =
        createComment u args.docId (jsOr args.workspaceId cfg.workspaceId)
          args.content args.docMode args.docTitle args.mentions)
      ∧ (callTool cfg u ("get_comments") args =
        getComments u args.docId (jsOr args.workspaceId cfg.workspaceId)
          args.limit)
      ∧ (callTool cfg u ("advanced_search") args =
        advancedSearch u (jsOr args.workspaceId cfg.workspaceId) args.query
          args.table args.fields args.limit args.highlights)
      ∧ (callTool cfg u ("get_document_history") args =
        getDocumentHistory u args.docId (jsOr args.workspaceId cfg.workspaceId)
          args.before args.limit)
      ∧ (callTool cfg u ("list_blobs") args =
        listBlobs u (jsOr args.workspaceId cfg.workspaceId))
      ∧ (callTool cfg u ("delete_blob") args =
        deleteBlob u (jsOr args.workspaceId cfg.workspaceId) args.blobKey
          args.permanently)
      ∧ (callTool cfg u ("list_documents") args =
        listDocuments u (jsOr args.workspaceId cfg.workspaceId) args.limit
          args.cursor))
    ∧ (∀ a b : Option String, truthyStr a = false → jsOr a b = b)
    ∧ (∀ a b : Option String,
        truthyStr (jsOr a b) = false ↔
          (truthyStr a = false ∧ truthyStr b = false))
    ∧ (∀ W q lim, truthyStr args.workspaceId = false →
        cfg.workspaceId = some W → W ≠ ("") → isBlank q = true →
        ((callTool cfg u ("search_documents")
            { args with query := q, limit := lim }).calls =
          [Call.docsQ (some W) 50 none])
        ∧ ∀ conn, u.docsConn (some W) 50 none = Except.ok conn →
            (callTool cfg u ("search_documents")
                { args with query := q, limit := lim }).result =
              Except.ok (ToolResult.searchListing (some W)
                (conn.edges.map DocEdge.node))) := by
  refine ⟨⟨by simp [callTool], by simp [callTool], by simp [callTool],
    by simp [callTool], by simp [callTool], by simp [callTool],
    by simp [callTool], by simp [callTool], by simp [callTool],
    by simp [callTool], by simp [callTool], by simp [callTool]⟩, ?_, ?_, ?_⟩
  · intro a b h
    simp [jsOr, h]
  · intro a b
    unfold jsOr
    cases hta : truthyStr a <;> simp [hta]
  · intro W q lim hfa hcw hW hq
    have ht := truthyStr_some_of_ne W hW
    have hj : jsOr args.workspaceId cfg.workspaceId = some W := by
      simp [jsOr, hfa, hcw]
    constructor
    · cases hconn : u.docsConn (some W) 50 none <;>
        simp [callTool, searchDocuments, getWorkspaceDocs, hq, hj, ht,
          Eff.bindE, Eff.callOp, Eff.pureE, hconn]
    · intro conn hconn
      simp [callTool, searchDocuments, getWorkspaceDocs, hq, hj, ht,
        Eff.bindE, Eff.callOp, Eff.pureE, hconn]

/-- C9 witness: an absent workspaceId argument with the configured default
workspace and a blank query issues the docs listing call for the default
workspace. -/
theorem falsy_workspace_arg_falls_back_to_config_witness :
    (callTool cfgA baseU ("search_documents") emptyArgs).calls =
      [Call.docsQ (some ("wsA")) 50 none] := by
  have h := (falsy_workspace_arg_falls_back_to_config cfgA baseU
      emptyArgs).2.2.2 ("wsA") none none rfl rfl (by decide) rfl
  exact h.1

/-- C10: when the metadata fetch succeeds but the document is null,
getDocument returns the Document-not-found payload (no error is thrown), and
the rendered text contains both the document id and the workspace id. -/
theorem null_doc_metadata_yields_not_found (u : Upstream)
    (d w : Option String) (hm : u.docMeta w d = Except.ok none) :
    getDocument u d w =
        ⟨[Call.docMetaQ w d], Except.ok (ToolResult.docNotFound d w)⟩
      ∧ (∃ a b : String, docNotFoundText d w = a ++ jsInterp d ++ b)
      ∧ (∃ a : String, docNotFoundText d w = a ++ jsInterp w) := by
  refine ⟨?_, ?_, ?_⟩
  · simp [getDocument, Eff.bindE, Eff.callOp, Eff.pureE, hm]
  · exact ⟨("❌ Document not found\n\nDocument ID: "),
      ("\nWorkspace ID: ") ++ jsInterp w,
      by simp [docNotFoundText, String.append_assoc]⟩
  · exact ⟨("❌ Document not found\n\nDocument ID: ") ++ jsInterp d ++
      ("\nWorkspace ID: "), rfl⟩

/-- C10 witness: a null document produces the not-found payload at concrete
ids. -/
theorem null_doc_metadata_yields_not_found_witness :
    getDocument uNullDoc (some ("docX")) (some ("wsA")) =
      ⟨[Call.docMetaQ (some ("wsA")) (some ("docX"))],
        Except.ok (ToolResult.docNotFound (some ("docX")) (some ("wsA")))⟩ :=
  (null_doc_metadata_yields_not_found uNullDoc (some ("docX")) (some ("wsA"))
    rfl).1

end AffineMcp
